import Mathlib

/-!
# Verification of the S3 gateway handlers (`src/app.js`)

`app.js` registers three Express handlers that forward to an S3 client:

* `POST /`            — draws 32 random bytes, hex-encodes them and puts the uploaded file
                        under that key;
* `GET /:fileId`      — asks the presigner for a GET-object URL valid for 3600 seconds;
* `DELETE /:fileId`   — sends a delete command inside `try`/`catch` and always answers 200.

The handlers are embedded as programs in an exception-over-state monad.  The state (`World`)
records everything a handler does to its surroundings: the commands handed to `client.send`,
the requests handed to `getSignedUrl`, the lines written by `console.log`, the responses written
through `res`, and the contents of the object store.  What the surroundings answer (whether a
command fails, what the presigner returns, which bytes the random source yields) is not decided
by the program; it is supplied through `Env` and the random draw, and the theorems quantify over
all of it.
-/

namespace S3Gateway

/-! ## Data model -/

/-- One byte of a Node `Buffer`. -/
abbrev Byte := Fin 256

/-- A Node `Buffer`: a sequence of bytes. -/
abbrev Buffer := List Byte

/-- The values a handler can raise: the `TypeError` JavaScript raises when a property of
`undefined` is read (`property` is the property that was read), and a failure reported by the
storage client or the presigner (`name` is the name of the failure). -/
inductive JsError where
  | typeError (property : String)
  | serviceError (name : String)
  deriving DecidableEq, Repr

/-- The file object that `multerInstance.single("file")` stores in `req.file`
(the fields the handler or its commented-out database call mention). -/
structure MulterFile where
  originalname : String
  mimetype : String
  buffer : Buffer
  deriving DecidableEq, Repr

/-- The request seen by the `POST /` handler: `file` is `req.file`, which multer leaves
`undefined` (`none`) when the request carries no file. -/
structure UploadRequest where
  file : Option MulterFile
  deriving DecidableEq, Repr

/-- The route parameters of `/:fileId`. -/
structure RouteParams where
  fileId : String
  deriving DecidableEq, Repr

/-- The request seen by the `GET /:fileId` and `DELETE /:fileId` handlers. -/
structure FileRequest where
  params : RouteParams
  deriving DecidableEq, Repr

/-- The value of `process.env.S3_BUCKET_NAME`: a string, or `undefined` (`none`) when unset. -/
abbrev BucketName := Option String

/-- The three S3 commands the program constructs, with the fields of their `params` object. -/
inductive S3Command where
  | PutObjectCommand (Bucket : BucketName) (Key : String) (Body : Buffer) (ContentType : String)
  | GetObjectCommand (Bucket : BucketName) (Key : String)
  | DeleteObjectCommand (Bucket : BucketName) (Key : String)
  deriving DecidableEq, Repr

/-- The `Key` field of a command. -/
def S3Command.Key : S3Command → String
  | .PutObjectCommand _ key _ _ => key
  | .GetObjectCommand _ key => key
  | .DeleteObjectCommand _ key => key

mutual
/-- The JSON values the handlers build as response bodies: booleans, strings and objects. -/
inductive Json where
  | bool (b : Bool)
  | str (s : String)
  | obj (fields : JsonFields)
  deriving DecidableEq, Repr
/-- The fields of a JSON object, in the order they are written. -/
inductive JsonFields where
  | nil
  | cons (key : String) (value : Json) (rest : JsonFields)
  deriving DecidableEq, Repr
end

mutual
/-- Every string that occurs in a JSON value, as a field name or as a string value. -/
def Json.strings : Json → List String
  | .bool _ => []
  | .str s => [s]
  | .obj fields => fields.strings
/-- Every string that occurs in the fields of a JSON object. -/
def JsonFields.strings : JsonFields → List String
  | .nil => []
  | .cons key value rest => key :: (value.strings ++ rest.strings)
end

/-- A response written by `res.status(code).json(body)`. -/
structure Response where
  status : Nat
  body : Json
  deriving DecidableEq, Repr

/-- The object stored under a key: the bytes and the content type of the put that wrote it. -/
structure StoredObject where
  content : Buffer
  contentType : String
  deriving DecidableEq, Repr

/-- The place of an object in the storage service: the bucket and the key. -/
abbrev ObjectRef := BucketName × String

/-- The object store as a key-value map. The storage service is an external collaborator of
the program; this is the model of it that the frame properties are stated over. -/
abbrev Store := ObjectRef → Option StoredObject

/-- What the handlers act on: the object store, and the record of every call a handler makes
to its surroundings, oldest first. -/
structure World where
  /-- the contents of the object store -/
  objects : Store
  /-- the commands handed to `client.send` -/
  sent : List S3Command
  /-- the calls of `getSignedUrl`: the command and the `expiresIn` option -/
  presigned : List (S3Command × Nat)
  /-- the calls of `console.log`: the message and the error logged with it -/
  logged : List (String × JsError)
  /-- the responses written through `res` -/
  responses : List Response

/-- What the program reads from its surroundings and does not decide itself. -/
structure Env where
  /-- `process.env.S3_BUCKET_NAME` -/
  s3BucketName : BucketName
  /-- whether the storage service rejects a command handed to `client.send`, and with what -/
  sendFailure : S3Command → Option JsError
  /-- what `getSignedUrl(client, command, { expiresIn })` resolves or rejects with -/
  getSignedUrl : S3Command → Nat → Except JsError String

/-! ## Key generation: `crypto.randomBytes(32).toString("hex")` -/

/-- The digits used by `Buffer.prototype.toString("hex")`. -/
def hexChars : List Char :=
  ['0', '1', '2', '3', '4', '5', '6', '7', '8', '9', 'a', 'b', 'c', 'd', 'e', 'f']

/-- The hexadecimal digit of a nibble. -/
def hexDigit (n : Nat) : Char := hexChars.getD n '0'

/-- The two hexadecimal digits of a byte, high nibble first. -/
def hexByte (b : Byte) : List Char := [hexDigit (b.val / 16), hexDigit (b.val % 16)]

/-- `buf.toString("hex")`: every byte becomes two lower-case hexadecimal digits. -/
def toString_hex (buf : Buffer) : String := String.mk (buf.flatMap hexByte)

/-- `crypto.randomBytes(n)`: a buffer of `n` bytes; `draw` is what the random source yields. -/
def randomBytes (n : Nat) (draw : Fin n → Byte) : Buffer := List.ofFn draw

/-- The storage key of an upload: `crypto.randomBytes(32).toString("hex")`. -/
def randomFileName (draw : Fin 32 → Byte) : String := toString_hex (randomBytes 32 draw)

/-- A character is a lower-case hexadecimal digit (`0-9`, `a-f`). -/
def isHexChar (c : Char) : Bool := ('0' ≤ c && c ≤ '9') || ('a' ≤ c && c ≤ 'f')

/-! ## The storage service -/

/-- Modelled from the spec: the storage service itself is an external collaborator and its
code is not part of the program; the spec gives its contract as `put(key, bytes, contentType)`
and `delete(key)` over stored objects with a key, a content and a content type, created on
upload and destroyed on delete, last write winning on the same key. This is the effect of a
command on the object store when the service accepts it: a put writes the object under its
bucket and key, a delete removes it, a get changes nothing. -/
def applyCommand (cmd : S3Command) (objects : Store) : Store :=
  match cmd with
  | .PutObjectCommand bucket key body contentType =>
      fun ref => if ref = (bucket, key) then some ⟨body, contentType⟩ else objects ref
  | .GetObjectCommand _ _ => objects
  | .DeleteObjectCommand bucket key =>
      fun ref => if ref = (bucket, key) then none else objects ref

/-! ## The handlers -/

/-- An `async` handler body: it may raise, and what it did before raising stays done. -/
abbrev Handler := ExceptT JsError (StateM World)

/-- `await client.send(command)`: the command reaches the storage service, which either
rejects it (the `await` raises) or carries it out. -/
def client_send (env : Env) (command : S3Command) : Handler Unit := do
  modify fun w => { w with sent := w.sent ++ [command] }
  match env.sendFailure command with
  | some error => throw error
  | none => modify fun w => { w with objects := applyCommand command w.objects }

/-- `await getSignedUrl(client, command, { expiresIn })`. -/
def getSignedUrl (env : Env) (command : S3Command) (expiresIn : Nat) : Handler String := do
  modify fun w => { w with presigned := w.presigned ++ [(command, expiresIn)] }
  match env.getSignedUrl command expiresIn with
  | .error error => throw error
  | .ok signedUrl => pure signedUrl

/-- `console.log(message, error)`. -/
def console_log (message : String) (error : JsError) : Handler Unit :=
  modify fun w => { w with logged := w.logged ++ [(message, error)] }

/-- `res.status(code).json(body)`. -/
def res_status_json (code : Nat) (body : Json) : Handler Unit :=
  modify fun w => { w with responses := w.responses ++ [⟨code, body⟩] }

/-- Reading `req.file.<property>`: raises a `TypeError` when `req.file` is `undefined`. -/
def req_file (req : UploadRequest) (property : String) (read : MulterFile → α) : Handler α :=
  match req.file with
  | none => throw (.typeError property)
  | some file => pure (read file)

/-- The body `{ success: true }`. -/
def successBody : Json := .obj (.cons "success" (.bool true) .nil)

/-- The body `{ success: true, data: { fileUrl: signedUrl } }`. -/
def fileUrlBody (signedUrl : String) : Json :=
  .obj (.cons "success" (.bool true)
    (.cons "data" (.obj (.cons "fileUrl" (.str signedUrl) .nil)) .nil))

/-- The handler of `app.post("/")`; `draw` is what `crypto.randomBytes(32)` yields. -/
def postHandler (env : Env) (draw : Fin 32 → Byte) (req : UploadRequest) : Handler Unit := do
  let randomFileName := toString_hex (randomBytes 32 draw)
  let body ← req_file req "buffer" (·.buffer)
  let contentType ← req_file req "mimetype" (·.mimetype)
  let uploadFileCommand :=
    S3Command.PutObjectCommand env.s3BucketName randomFileName body contentType
  client_send env uploadFileCommand
  res_status_json 201 successBody

/-- The handler of `app.get("/:fileId")`. -/
def getHandler (env : Env) (req : FileRequest) : Handler Unit := do
  let fileId := req.params.fileId
  let getFileCommand := S3Command.GetObjectCommand env.s3BucketName fileId
  let signedUrl ← getSignedUrl env getFileCommand 3600
  res_status_json 200 (fileUrlBody signedUrl)

/-- The handler of `app.delete("/:fileId")`. -/
def deleteHandler (env : Env) (req : FileRequest) : Handler Unit := do
  let fileId := req.params.fileId
  try
    let deleteCommand := S3Command.DeleteObjectCommand env.s3BucketName fileId
    client_send env deleteCommand
  catch error =>
    console_log "Error deleting file" error
  res_status_json 200 successBody

/-- Running a handler from a world: how it ends (`.ok ()` when it completes, `.error e` when
it raises `e`) and the world it leaves. -/
def runHandler (h : Handler Unit) (w : World) : Except JsError Unit × World := (h.run).run w

/-- A world in which nothing has been called yet. -/
def World.fresh (objects : Store) : World := ⟨objects, [], [], [], []⟩

/-! ## Concrete surroundings used to exercise the theorems -/

/-- A configuration whose storage service accepts every command and whose presigner answers. -/
def workingEnv : Env :=
  { s3BucketName := some "uploads"
    sendFailure := fun _ => none
    getSignedUrl := fun _ _ => .ok "https://uploads.example/signed" }

/-- A configuration whose storage service rejects every command and whose presigner fails. -/
def failingEnv : Env :=
  { s3BucketName := some "uploads"
    sendFailure := fun _ => some (.serviceError "AccessDenied")
    getSignedUrl := fun _ _ => .error (.serviceError "CredentialsProviderError") }

/-- The file of the end-to-end scenario: `hello.txt`, content `"hi"`, type `text/plain`. -/
def helloFile : MulterFile :=
  { originalname := "hello.txt", mimetype := "text/plain", buffer := [104, 105] }

/-- A random draw: byte `i` is `7 * i`. -/
def sampleDraw : Fin 32 → Byte := fun i => ⟨7 * i.val, by omega⟩

/-- An object store holding one object, under key `"k"` of bucket `uploads`. -/
def oneObjectStore : Store :=
  fun ref => if ref = (some "uploads", "k") then some ⟨[104, 105], "text/plain"⟩ else none

/-- An object store holding two objects of bucket `uploads`, under the keys `"k"` and
`"other"`. -/
def twoObjectStore : Store :=
  fun ref =>
    if ref = (some "uploads", "k") then some ⟨[104, 105], "text/plain"⟩
    else if ref = (some "uploads", "other") then some ⟨[1, 2, 3], "image/png"⟩
    else none

/-- An object store holding nothing. -/
def emptyStore : Store := fun _ => none

/-- The put command an upload of `file` builds when the random source yields `draw`. -/
def uploadFileCommand (env : Env) (draw : Fin 32 → Byte) (file : MulterFile) : S3Command :=
  .PutObjectCommand env.s3BucketName (randomFileName draw) file.buffer file.mimetype

/-! ## What each handler does, case by case -/

theorem runHandler_postHandler_noFile (env : Env) (draw : Fin 32 → Byte) (w : World) :
    runHandler (postHandler env draw ⟨none⟩) w = (.error (.typeError "buffer"), w) := by
  rfl

theorem runHandler_postHandler_file (env : Env) (draw : Fin 32 → Byte) (file : MulterFile)
    (w : World) :
    runHandler (postHandler env draw ⟨some file⟩) w =
      match env.sendFailure (uploadFileCommand env draw file) with
      | some error =>
          (.error error, { w with sent := w.sent ++ [uploadFileCommand env draw file] })
      | none =>
          (.ok (), { w with
            sent := w.sent ++ [uploadFileCommand env draw file]
            objects := applyCommand (uploadFileCommand env draw file) w.objects
            responses := w.responses ++ [⟨201, successBody⟩] }) := by
  cases h : env.sendFailure (uploadFileCommand env draw file) <;>
    simp only [runHandler, postHandler, req_file, client_send, uploadFileCommand,
      randomFileName, pure_bind] at h ⊢ <;> rw [h] <;> rfl

theorem runHandler_getHandler (env : Env) (req : FileRequest) (w : World) :
    runHandler (getHandler env req) w =
      match env.getSignedUrl (.GetObjectCommand env.s3BucketName req.params.fileId) 3600 with
      | .error error =>
          (.error error, { w with
            presigned := w.presigned ++
              [(.GetObjectCommand env.s3BucketName req.params.fileId, 3600)] })
      | .ok signedUrl =>
          (.ok (), { w with
            presigned := w.presigned ++
              [(.GetObjectCommand env.s3BucketName req.params.fileId, 3600)]
            responses := w.responses ++ [⟨200, fileUrlBody signedUrl⟩] }) := by
  cases h : env.getSignedUrl (.GetObjectCommand env.s3BucketName req.params.fileId) 3600 <;>
    simp only [runHandler, getHandler, getSignedUrl, pure_bind] at h ⊢ <;> rw [h] <;> rfl

theorem runHandler_deleteHandler (env : Env) (req : FileRequest) (w : World) :
    runHandler (deleteHandler env req) w =
      match env.sendFailure (.DeleteObjectCommand env.s3BucketName req.params.fileId) with
      | some error =>
          (.ok (), { w with
            sent := w.sent ++ [.DeleteObjectCommand env.s3BucketName req.params.fileId]
            logged := w.logged ++ [("Error deleting file", error)]
            responses := w.responses ++ [⟨200, successBody⟩] })
      | none =>
          (.ok (), { w with
            sent := w.sent ++ [.DeleteObjectCommand env.s3BucketName req.params.fileId]
            objects := applyCommand
              (.DeleteObjectCommand env.s3BucketName req.params.fileId) w.objects
            responses := w.responses ++ [⟨200, successBody⟩] }) := by
  cases h : env.sendFailure (.DeleteObjectCommand env.s3BucketName req.params.fileId) <;>
    simp only [runHandler, deleteHandler, client_send, pure_bind] at h ⊢ <;> rw [h] <;> rfl

/-! ## Facts about the hexadecimal encoding -/

theorem hexDigit_isHexChar : ∀ n : Fin 16, isHexChar (hexDigit n.val) = true := by
  decide

theorem hexDigit_injective : ∀ m n : Fin 16, hexDigit m.val = hexDigit n.val → m = n := by
  decide

theorem hexByte_all_isHexChar (b : Byte) : (hexByte b).all isHexChar = true := by
  have h1 := hexDigit_isHexChar ⟨b.val / 16, by omega⟩
  have h2 := hexDigit_isHexChar ⟨b.val % 16, by omega⟩
  simp only [hexByte, List.all_cons, List.all_nil, Bool.and_true, Bool.and_eq_true]
  exact ⟨h1, h2⟩

theorem hexByte_injective (a b : Byte) (h : hexByte a = hexByte b) : a = b := by
  simp only [hexByte, List.cons.injEq, and_true] at h
  have h1 := hexDigit_injective ⟨a.val / 16, by omega⟩ ⟨b.val / 16, by omega⟩ h.1
  have h2 := hexDigit_injective ⟨a.val % 16, by omega⟩ ⟨b.val % 16, by omega⟩ h.2
  simp only [Fin.mk.injEq] at h1 h2
  apply Fin.ext
  omega

theorem flatMap_hexByte_length (buf : Buffer) : (buf.flatMap hexByte).length = 2 * buf.length := by
  induction buf with
  | nil => rfl
  | cons b rest ih =>
      simp only [List.flatMap_cons, List.length_append, ih, List.length_cons, hexByte]
      simp only [List.length_nil]
      omega

theorem flatMap_hexByte_all (buf : Buffer) : (buf.flatMap hexByte).all isHexChar = true := by
  induction buf with
  | nil => rfl
  | cons b rest ih =>
      rw [List.flatMap_cons, List.all_append, hexByte_all_isHexChar, ih]
      rfl

theorem flatMap_hexByte_injective :
    ∀ buf₁ buf₂ : Buffer, buf₁.flatMap hexByte = buf₂.flatMap hexByte → buf₁ = buf₂
  | [], [], _ => rfl
  | [], b :: rest, h => by simp [hexByte] at h
  | a :: rest, [], h => by simp [hexByte] at h
  | a :: rest₁, b :: rest₂, h => by
      simp only [List.flatMap_cons, hexByte, List.cons_append, List.nil_append,
        List.cons.injEq] at h
      have hab : a = b := hexByte_injective a b (by simp only [hexByte, h.1, h.2.1])
      rw [hab, flatMap_hexByte_injective rest₁ rest₂ h.2.2]

theorem toString_hex_injective (buf₁ buf₂ : Buffer) (h : toString_hex buf₁ = toString_hex buf₂) :
    buf₁ = buf₂ := by
  exact flatMap_hexByte_injective buf₁ buf₂ (congrArg String.data h)

theorem randomFileName_length (draw : Fin 32 → Byte) : (randomFileName draw).length = 64 := by
  simp only [randomFileName, toString_hex, randomBytes, String.length, flatMap_hexByte_length,
    List.length_ofFn]

theorem randomFileName_all_isHexChar (draw : Fin 32 → Byte) :
    (randomFileName draw).data.all isHexChar = true := by
  simp only [randomFileName, toString_hex, flatMap_hexByte_all]

theorem randomFileName_eq_iff (draw₁ draw₂ : Fin 32 → Byte) :
    randomFileName draw₁ = randomFileName draw₂ ↔ draw₁ = draw₂ := by
  constructor
  · intro h
    exact List.ofFn_injective (toString_hex_injective _ _ h)
  · intro h
    rw [h]

/-! ## The claims -/

/-- C1: for every fileId and every outcome of the storage delete call (accepted, or rejected
with any error), the `DELETE /:fileId` handler completes without raising and writes exactly one
response, status 200 with body `{ success: true }`; the response does not depend on the
outcome. -/
theorem delete_always_answers_success (env : Env) (req : FileRequest) (w : World) :
    (runHandler (deleteHandler env req) w).1 = .ok () ∧
    (runHandler (deleteHandler env req) w).2.responses =
      w.responses ++ [⟨200, .obj (.cons "success" (.bool true) .nil)⟩] := by
  rw [runHandler_deleteHandler]
  cases env.sendFailure (.DeleteObjectCommand env.s3BucketName req.params.fileId) <;>
    exact ⟨rfl, rfl⟩

/-- C2 (the code at the failing input): for an upload request without a file the `POST /`
handler raises the `TypeError` of reading `req.file.buffer`; it writes no response at all, so
no 4xx response, and it sends nothing to the storage service. -/
theorem post_without_file_raises (env : Env) (draw : Fin 32 → Byte) (w : World) :
    (runHandler (postHandler env draw ⟨none⟩) w).1 = .error (.typeError "buffer") ∧
    (runHandler (postHandler env draw ⟨none⟩) w).2.responses = w.responses ∧
    (runHandler (postHandler env draw ⟨none⟩) w).2.sent = w.sent := by
  rw [runHandler_postHandler_noFile]
  exact ⟨rfl, rfl, rfl⟩

/-- C3: for every value of the 32 random bytes, the key under which the upload handler puts
the file has exactly 64 characters, each of them a hexadecimal digit `0-9`, `a-f`. -/
theorem upload_key_is_64_hex_chars (env : Env) (draw : Fin 32 → Byte) (file : MulterFile)
    (w : World) :
    ∃ key : String,
      (runHandler (postHandler env draw ⟨some file⟩) w).2.sent =
        w.sent ++ [.PutObjectCommand env.s3BucketName key file.buffer file.mimetype] ∧
      key = toString_hex (randomBytes 32 draw) ∧
      key.length = 64 ∧
      key.data.all isHexChar = true := by
  refine ⟨randomFileName draw, ?_, rfl, randomFileName_length draw,
    randomFileName_all_isHexChar draw⟩
  rw [runHandler_postHandler_file]
  cases env.sendFailure (uploadFileCommand env draw file) <;> rfl

/-- C4: for every upload request carrying a file and every generated key, when the storage
put succeeds the `POST /` handler completes and writes exactly one response, status 201 with
body `{ success: true }`; the body is this constant whatever the file and the key, and no
string occurring in it contains the generated key. -/
theorem post_success_answers_201 (env : Env) (draw : Fin 32 → Byte) (file : MulterFile)
    (w : World)
    (hput : env.sendFailure (.PutObjectCommand env.s3BucketName
      (toString_hex (randomBytes 32 draw)) file.buffer file.mimetype) = none) :
    (runHandler (postHandler env draw ⟨some file⟩) w).1 = .ok () ∧
    (runHandler (postHandler env draw ⟨some file⟩) w).2.responses =
      w.responses ++ [⟨201, .obj (.cons "success" (.bool true) .nil)⟩] ∧
    ∀ s ∈ (Json.obj (.cons "success" (.bool true) .nil)).strings,
      ¬ (toString_hex (randomBytes 32 draw)).data <:+: s.data := by
  have hput' : env.sendFailure (uploadFileCommand env draw file) = none := hput
  rw [runHandler_postHandler_file, hput']
  refine ⟨rfl, rfl, ?_⟩
  intro s hs hinfix
  simp only [Json.strings, JsonFields.strings, List.append_nil, List.mem_singleton] at hs
  have hlen := hinfix.length_le
  have hkey : (toString_hex (randomBytes 32 draw)).data.length = 64 :=
    randomFileName_length draw
  rw [hkey, hs] at hlen
  exact absurd hlen (by decide)

/-- The upload of `hello.txt` to a working storage service is answered with 201. -/
theorem post_success_answers_201_witness :
    workingEnv.sendFailure (.PutObjectCommand workingEnv.s3BucketName
      (toString_hex (randomBytes 32 sampleDraw)) helloFile.buffer helloFile.mimetype) = none ∧
    ((runHandler (postHandler workingEnv sampleDraw ⟨some helloFile⟩)
        (World.fresh emptyStore)).1 = .ok () ∧
      (runHandler (postHandler workingEnv sampleDraw ⟨some helloFile⟩)
        (World.fresh emptyStore)).2.responses =
        (World.fresh emptyStore).responses ++ [⟨201, .obj (.cons "success" (.bool true) .nil)⟩] ∧
      ∀ s ∈ (Json.obj (.cons "success" (.bool true) .nil)).strings,
        ¬ (toString_hex (randomBytes 32 sampleDraw)).data <:+: s.data) :=
  ⟨rfl, post_success_answers_201 workingEnv sampleDraw helloFile (World.fresh emptyStore) rfl⟩

/-- C5: for every fileId the `GET /:fileId` handler makes exactly one presigner call, for a
get-object command with the configured bucket and the key equal to fileId as received, with
`expiresIn` 3600; when the presigner returns `url` the handler completes and writes exactly one
response, status 200 with body `{ success: true, data: { fileUrl: url } }`. -/
theorem get_presigns_3600_and_answers_url (env : Env) (req : FileRequest) (w : World) :
    (runHandler (getHandler env req) w).2.presigned =
      w.presigned ++ [(.GetObjectCommand env.s3BucketName req.params.fileId, 3600)] ∧
    ∀ url : String,
      env.getSignedUrl (.GetObjectCommand env.s3BucketName req.params.fileId) 3600 = .ok url →
      (runHandler (getHandler env req) w).1 = .ok () ∧
      (runHandler (getHandler env req) w).2.responses =
        w.responses ++ [⟨200, .obj (.cons "success" (.bool true)
          (.cons "data" (.obj (.cons "fileUrl" (.str url) .nil)) .nil))⟩] := by
  rw [runHandler_getHandler]
  constructor
  · cases env.getSignedUrl (.GetObjectCommand env.s3BucketName req.params.fileId) 3600 <;> rfl
  · intro url hurl
    rw [hurl]
    exact ⟨rfl, rfl⟩

/-- Fetching the link of `k` with a working presigner is answered with the signed URL. -/
theorem get_presigns_3600_and_answers_url_witness :
    workingEnv.getSignedUrl (.GetObjectCommand workingEnv.s3BucketName "k") 3600 =
      .ok "https://uploads.example/signed" ∧
    (runHandler (getHandler workingEnv ⟨⟨"k"⟩⟩) (World.fresh emptyStore)).2.presigned =
      [(.GetObjectCommand (some "uploads") "k", 3600)] ∧
    (runHandler (getHandler workingEnv ⟨⟨"k"⟩⟩) (World.fresh emptyStore)).1 = .ok () ∧
    (runHandler (getHandler workingEnv ⟨⟨"k"⟩⟩) (World.fresh emptyStore)).2.responses =
      [⟨200, .obj (.cons "success" (.bool true)
        (.cons "data" (.obj (.cons "fileUrl" (.str "https://uploads.example/signed") .nil))
          .nil))⟩] :=
  ⟨rfl,
    (get_presigns_3600_and_answers_url workingEnv ⟨⟨"k"⟩⟩ (World.fresh emptyStore)).1,
    (get_presigns_3600_and_answers_url workingEnv ⟨⟨"k"⟩⟩ (World.fresh emptyStore)).2
      "https://uploads.example/signed" rfl⟩

/-- C6, as stated, fails: with a presigner that rejects, `GET /k` writes no response and raises
the presigner's error, both when the store holds an object under `k` and when it does not; so
it does not return a status-200 response with a URL for every fileId and every store. -/
theorem get_answers_200_for_every_store_counterexample :
    oneObjectStore (failingEnv.s3BucketName, "k") ≠ none ∧
    emptyStore (failingEnv.s3BucketName, "k") = none ∧
    (runHandler (getHandler failingEnv ⟨⟨"k"⟩⟩) (World.fresh oneObjectStore)).1 =
      .error (.serviceError "CredentialsProviderError") ∧
    (runHandler (getHandler failingEnv ⟨⟨"k"⟩⟩) (World.fresh emptyStore)).1 =
      .error (.serviceError "CredentialsProviderError") ∧
    (runHandler (getHandler failingEnv ⟨⟨"k"⟩⟩) (World.fresh oneObjectStore)).2.responses = [] ∧
    (runHandler (getHandler failingEnv ⟨⟨"k"⟩⟩) (World.fresh emptyStore)).2.responses = [] ∧
    ¬ ∃ body : Json,
      (runHandler (getHandler failingEnv ⟨⟨"k"⟩⟩) (World.fresh emptyStore)).2.responses =
        [⟨200, body⟩] := by
  refine ⟨by decide, rfl, rfl, rfl, rfl, rfl, ?_⟩
  rintro ⟨body, hbody⟩
  exact absurd hbody (by rw [runHandler_getHandler]; exact List.noConfusion)

/-- C6, amended: the fetch-link handler performs no existence check. For every fileId and any
two states of the object store with the same presigner, `GET /:fileId` ends the same way and
writes the same responses in both; whenever the presigner returns a URL, that is the
status-200 response carrying the URL; in every case it sends no command to the storage
service (no put, no delete) and leaves the object store as it was. -/
theorem get_ignores_the_store (env : Env) (req : FileRequest) (w : World)
    (objects₁ objects₂ : Store) :
    (runHandler (getHandler env req) { w with objects := objects₁ }).1 =
      (runHandler (getHandler env req) { w with objects := objects₂ }).1 ∧
    (runHandler (getHandler env req) { w with objects := objects₁ }).2.responses =
      (runHandler (getHandler env req) { w with objects := objects₂ }).2.responses ∧
    (runHandler (getHandler env req) { w with objects := objects₁ }).2.sent = w.sent ∧
    (runHandler (getHandler env req) { w with objects := objects₂ }).2.sent = w.sent ∧
    (runHandler (getHandler env req) { w with objects := objects₁ }).2.objects = objects₁ ∧
    (runHandler (getHandler env req) { w with objects := objects₂ }).2.objects = objects₂ ∧
    ∀ url : String,
      env.getSignedUrl (.GetObjectCommand env.s3BucketName req.params.fileId) 3600 = .ok url →
      (runHandler (getHandler env req) { w with objects := objects₁ }).1 = .ok () ∧
      (runHandler (getHandler env req) { w with objects := objects₁ }).2.responses =
        w.responses ++ [⟨200, .obj (.cons "success" (.bool true)
          (.cons "data" (.obj (.cons "fileUrl" (.str url) .nil)) .nil))⟩] := by
  rw [runHandler_getHandler, runHandler_getHandler]
  cases h : env.getSignedUrl (.GetObjectCommand env.s3BucketName req.params.fileId) 3600 with
  | error e =>
      refine ⟨rfl, rfl, rfl, rfl, rfl, rfl, ?_⟩
      intro url hurl
      exact Except.noConfusion hurl
  | ok signedUrl =>
      refine ⟨rfl, rfl, rfl, rfl, rfl, rfl, ?_⟩
      intro url hurl
      cases hurl
      exact ⟨rfl, rfl⟩

/-- Fetching the link of `k` gives the same 200 response whether or not the store holds `k`. -/
theorem get_ignores_the_store_witness :
    oneObjectStore (workingEnv.s3BucketName, "k") ≠ none ∧
    emptyStore (workingEnv.s3BucketName, "k") = none ∧
    workingEnv.getSignedUrl (.GetObjectCommand workingEnv.s3BucketName "k") 3600 =
      .ok "https://uploads.example/signed" ∧
    (runHandler (getHandler workingEnv ⟨⟨"k"⟩⟩) (World.fresh oneObjectStore)).2.responses =
      (runHandler (getHandler workingEnv ⟨⟨"k"⟩⟩) (World.fresh emptyStore)).2.responses ∧
    (runHandler (getHandler workingEnv ⟨⟨"k"⟩⟩) (World.fresh oneObjectStore)).2.responses =
      [⟨200, .obj (.cons "success" (.bool true)
        (.cons "data" (.obj (.cons "fileUrl" (.str "https://uploads.example/signed") .nil))
          .nil))⟩] :=
  ⟨by decide, rfl, rfl,
    (get_ignores_the_store workingEnv ⟨⟨"k"⟩⟩ (World.fresh emptyStore)
      oneObjectStore emptyStore).2.1,
    ((get_ignores_the_store workingEnv ⟨⟨"k"⟩⟩ (World.fresh emptyStore)
      oneObjectStore emptyStore).2.2.2.2.2.2 "https://uploads.example/signed" rfl).2⟩

/-- C7: for every upload request carrying a file with bytes `b` and MIME type `t`, and every
32 random bytes `r`, the upload handler hands exactly one command to the storage service, a put
whose bucket is the configured bucket, whose key is the hex encoding of `r`, whose body is `b`
and whose content type is `t`; it calls nothing else; and the key is the same for any other
file (other bytes, other type, other name) uploaded with the same `r`. -/
theorem upload_issues_one_put (env : Env) (draw : Fin 32 → Byte) (file : MulterFile)
    (w : World) :
    (runHandler (postHandler env draw ⟨some file⟩) w).2.sent =
      w.sent ++ [.PutObjectCommand env.s3BucketName (toString_hex (randomBytes 32 draw))
        file.buffer file.mimetype] ∧
    (runHandler (postHandler env draw ⟨some file⟩) w).2.presigned = w.presigned ∧
    ∀ other : MulterFile,
      (runHandler (postHandler env draw ⟨some other⟩) w).2.sent.map S3Command.Key =
        (runHandler (postHandler env draw ⟨some file⟩) w).2.sent.map S3Command.Key := by
  have hsent : ∀ f : MulterFile, (runHandler (postHandler env draw ⟨some f⟩) w).2.sent =
      w.sent ++ [uploadFileCommand env draw f] := by
    intro f
    rw [runHandler_postHandler_file]
    cases env.sendFailure (uploadFileCommand env draw f) <;> rfl
  refine ⟨hsent file, ?_, ?_⟩
  · rw [runHandler_postHandler_file]
    cases env.sendFailure (uploadFileCommand env draw file) <;> rfl
  · intro other
    rw [hsent other, hsent file]
    simp only [List.map_append, List.map_cons, List.map_nil, uploadFileCommand, S3Command.Key]

/-- C8: a storage-service failure on write or on link generation is not handled. Whenever the
storage put is rejected with `error`, the `POST /` handler raises that same `error` and writes
no response; whenever the presigner fails with `error`, the `GET /:fileId` handler raises that
same `error` and writes no response. Neither handler turns the failure into a status code. -/
theorem put_and_presign_failures_propagate :
    (∀ (env : Env) (draw : Fin 32 → Byte) (file : MulterFile) (w : World) (error : JsError),
      env.sendFailure (.PutObjectCommand env.s3BucketName (toString_hex (randomBytes 32 draw))
        file.buffer file.mimetype) = some error →
      (runHandler (postHandler env draw ⟨some file⟩) w).1 = .error error ∧
      (runHandler (postHandler env draw ⟨some file⟩) w).2.responses = w.responses) ∧
    (∀ (env : Env) (req : FileRequest) (w : World) (error : JsError),
      env.getSignedUrl (.GetObjectCommand env.s3BucketName req.params.fileId) 3600 =
        .error error →
      (runHandler (getHandler env req) w).1 = .error error ∧
      (runHandler (getHandler env req) w).2.responses = w.responses) := by
  constructor
  · intro env draw file w error hput
    have hput' : env.sendFailure (uploadFileCommand env draw file) = some error := hput
    rw [runHandler_postHandler_file, hput']
    exact ⟨rfl, rfl⟩
  · intro env req w error hsign
    rw [runHandler_getHandler, hsign]
    exact ⟨rfl, rfl⟩

/-- With a storage service that rejects everything, the upload of `hello.txt` and the fetch of
the link of `k` both raise the service error and write no response. -/
theorem put_and_presign_failures_propagate_witness :
    (failingEnv.sendFailure (.PutObjectCommand failingEnv.s3BucketName
        (toString_hex (randomBytes 32 sampleDraw)) helloFile.buffer helloFile.mimetype) =
        some (.serviceError "AccessDenied") ∧
      (runHandler (postHandler failingEnv sampleDraw ⟨some helloFile⟩)
        (World.fresh emptyStore)).1 = .error (.serviceError "AccessDenied") ∧
      (runHandler (postHandler failingEnv sampleDraw ⟨some helloFile⟩)
        (World.fresh emptyStore)).2.responses = []) ∧
    (failingEnv.getSignedUrl (.GetObjectCommand failingEnv.s3BucketName "k") 3600 =
        .error (.serviceError "CredentialsProviderError") ∧
      (runHandler (getHandler failingEnv ⟨⟨"k"⟩⟩) (World.fresh emptyStore)).1 =
        .error (.serviceError "CredentialsProviderError") ∧
      (runHandler (getHandler failingEnv ⟨⟨"k"⟩⟩) (World.fresh emptyStore)).2.responses = []) :=
  ⟨⟨rfl, put_and_presign_failures_propagate.1 failingEnv sampleDraw helloFile
      (World.fresh emptyStore) (.serviceError "AccessDenied") rfl⟩,
    ⟨rfl, put_and_presign_failures_propagate.2 failingEnv ⟨⟨"k"⟩⟩
      (World.fresh emptyStore) (.serviceError "CredentialsProviderError") rfl⟩⟩

/-- C9: key generation is injective in the random draw. For any two uploads (of any two files,
identical content included, from any two worlds), the keys of the puts they issue are equal if
and only if the two 32-byte draws are equal; so uploads whose draws differ never use the same
key. -/
theorem upload_keys_equal_iff_draws_equal (env : Env) (draw₁ draw₂ : Fin 32 → Byte)
    (file₁ file₂ : MulterFile) (w₁ w₂ : World) :
    ∃ key₁ key₂ : String,
      (runHandler (postHandler env draw₁ ⟨some file₁⟩) w₁).2.sent =
        w₁.sent ++ [.PutObjectCommand env.s3BucketName key₁ file₁.buffer file₁.mimetype] ∧
      (runHandler (postHandler env draw₂ ⟨some file₂⟩) w₂).2.sent =
        w₂.sent ++ [.PutObjectCommand env.s3BucketName key₂ file₂.buffer file₂.mimetype] ∧
      (key₁ = key₂ ↔ draw₁ = draw₂) := by
  refine ⟨randomFileName draw₁, randomFileName draw₂, ?_, ?_, randomFileName_eq_iff draw₁ draw₂⟩
  · rw [runHandler_postHandler_file]
    cases env.sendFailure (uploadFileCommand env draw₁ file₁) <;> rfl
  · rw [runHandler_postHandler_file]
    cases env.sendFailure (uploadFileCommand env draw₂ file₂) <;> rfl

/-- C10: for every fileId the `DELETE /:fileId` handler hands exactly one command to the
storage service, a delete for the configured bucket with the key equal to fileId as received,
and calls neither a put nor another delete nor the presigner; over the key-value model of the
store, when that delete succeeds the object under fileId is absent afterwards and the object
under every other bucket and key is unchanged. -/
theorem delete_issues_one_delete (env : Env) (req : FileRequest) (w : World) :
    (runHandler (deleteHandler env req) w).2.sent =
      w.sent ++ [.DeleteObjectCommand env.s3BucketName req.params.fileId] ∧
    (runHandler (deleteHandler env req) w).2.presigned = w.presigned ∧
    (env.sendFailure (.DeleteObjectCommand env.s3BucketName req.params.fileId) = none →
      (runHandler (deleteHandler env req) w).2.objects (env.s3BucketName, req.params.fileId) =
        none ∧
      ∀ ref : ObjectRef, ref ≠ (env.s3BucketName, req.params.fileId) →
        (runHandler (deleteHandler env req) w).2.objects ref = w.objects ref) := by
  rw [runHandler_deleteHandler]
  cases h : env.sendFailure (.DeleteObjectCommand env.s3BucketName req.params.fileId) with
  | some error =>
      refine ⟨rfl, rfl, ?_⟩
      intro hnone
      exact Option.noConfusion hnone
  | none =>
      refine ⟨rfl, rfl, ?_⟩
      intro _
      constructor
      · simp only [applyCommand, if_true]
      · intro ref href
        simp only [applyCommand, if_neg href]

/-- Deleting `k` from a store holding `k` and `other` removes `k` and keeps `other`. -/
theorem delete_issues_one_delete_witness :
    workingEnv.sendFailure (.DeleteObjectCommand workingEnv.s3BucketName "k") = none ∧
    (some "uploads", "other") ≠ (workingEnv.s3BucketName, "k") ∧
    twoObjectStore (some "uploads", "k") = some ⟨[104, 105], "text/plain"⟩ ∧
    (runHandler (deleteHandler workingEnv ⟨⟨"k"⟩⟩) (World.fresh twoObjectStore)).2.sent =
      [.DeleteObjectCommand (some "uploads") "k"] ∧
    (runHandler (deleteHandler workingEnv ⟨⟨"k"⟩⟩) (World.fresh twoObjectStore)).2.objects
      (some "uploads", "k") = none ∧
    (runHandler (deleteHandler workingEnv ⟨⟨"k"⟩⟩) (World.fresh twoObjectStore)).2.objects
      (some "uploads", "other") = some ⟨[1, 2, 3], "image/png"⟩ :=
  ⟨rfl, by decide, by decide,
    (delete_issues_one_delete workingEnv ⟨⟨"k"⟩⟩ (World.fresh twoObjectStore)).1,
    ((delete_issues_one_delete workingEnv ⟨⟨"k"⟩⟩ (World.fresh twoObjectStore)).2.2 rfl).1,
    (((delete_issues_one_delete workingEnv ⟨⟨"k"⟩⟩ (World.fresh twoObjectStore)).2.2 rfl).2
      (some "uploads", "other") (by decide)).trans (by decide)⟩

end S3Gateway
